import Mathlib

/-!
# Invoice/PO Reconciliation Agent — shallow embedding

A shallow embedding of `src/reconcillation_agent.py`: the per-session workflow
state (`st.session_state`), the content-extraction dispatch (`process_file`),
the upload action (`process_uploaded_file`) and the comparison orchestration
(`generate_summary`).  External collaborators (the Azure document-intelligence
extractor, the file system, the Pezzo prompt service, the LLM connector and
`st.secrets`) are modelled as oracles collected in an `Env` record; every
invocation of an external collaborator or of the Content Extractor is recorded
in a trace of `ExtCall` events so that claims about which services are invoked
can be stated.  Python exceptions are modelled as `Except String`; a function
that catches all exceptions (like `process_file`) is total and returns a plain
sum-like result.
-/

set_option autoImplicit false

namespace Reconcile

/-- A structured table.  The Python code holds a pandas `DataFrame`; only the
header row and the data rows are relevant to this design. -/
structure Table where
  headers : List String
  rows : List (List String)
deriving Repr, DecidableEq

/-- Extracted Content: the `(text, tables)` pair produced by extraction
(`extract_content_from_pdf` / `extract_content_from_csv` both return such a
pair). -/
abbrev Content := String × List Table

/-- The per-session workflow state: the four `st.session_state` fields
initialised to `None` at lines 17–24 of the source. -/
structure SessionState where
  invoice_content : Option Content
  po_content : Option Content
  invoice_path : Option String
  po_path : Option String
deriving Repr, DecidableEq

/-- The session state right after initialisation: all four fields absent. -/
def SessionState.empty : SessionState :=
  { invoice_content := none, po_content := none
    invoice_path := none, po_path := none }

/-- One recorded invocation of the Content Extractor or of an external
collaborator.  `extractor` marks an invocation of `process_file` itself (the
Content Extractor of the spec); the others mark the underlying service calls. -/
inductive ExtCall where
  | extractor (path : String) (document_type : String)
  | pdfExtract (path : String)
  | csvRead (path : String)
  | connect (deployment : String)
  | getPrompt (name : String)
  | llmInvoke (prompt : String)
deriving Repr, DecidableEq

/-- `true` on events of the extraction subsystem (Content Extractor entry and
its two underlying service calls); `false` on the comparison-side collaborators
(LLM connector, prompt service, LLM invocation). -/
def isExtractionCall : ExtCall → Bool
  | .extractor _ _ => true
  | .pdfExtract _ => true
  | .csvRead _ => true
  | _ => false

/-- `true` exactly on Content-Extractor invocations (`process_file` calls). -/
def isExtractorCall : ExtCall → Bool
  | .extractor _ _ => true
  | _ => false

/-- `true` exactly on Prompt Template Service invocations. -/
def isPromptCall : ExtCall → Bool
  | .getPrompt _ => true
  | _ => false

/-- `true` exactly on language-model completion invocations. -/
def isLlmCall : ExtCall → Bool
  | .llmInvoke _ => true
  | _ => false

/-- The external world as oracles.  `fs` is the scratch file system (path to
file contents); `pdfExtract` is the Azure document-intelligence service
(`.error` models a raised exception); `connect` is
`AzureOpenAIConnector.connect_azure_open_ai`; `secrets` is `st.secrets`;
`getPrompt` is `PezzoPromptRenderer.get_prompt`; `llmInvoke` is `llm.invoke`
(its `.ok` value is the `response.content` text). -/
structure Env where
  fs : String → Option String
  pdfExtract : String → Except String Content
  connect : String → Except String Unit
  secrets : String → Option String
  getPrompt : String → Except String String
  llmInvoke : String → Except String String

/-- Split a character list at every occurrence of the separator (the
semantics of Python `str.split(sep)` / `String.splitOn` for a one-character
separator), written by structural recursion so the kernel can evaluate it. -/
def splitOnChar (sep : Char) : List Char → List (List Char)
  | [] => [[]]
  | c :: rest =>
    match splitOnChar sep rest with
    | [] => if c = sep then [[], []] else [[c]]
    | h :: t => if c = sep then [] :: h :: t else (c :: h) :: t

/-- Lowercase every character (the semantics of Python `str.lower` /
`String.toLower`), written so the kernel can evaluate it. -/
def strToLower (s : String) : String :=
  String.mk (s.data.map Char.toLower)

/-- Suffix test (the semantics of Python `str.endswith` /
`String.endsWith`), written so the kernel can evaluate it: the final
`suffix`-sized slice of `s` must equal `suffix`. -/
def strEndsWith (s suffix : String) : Bool :=
  decide (s.data.drop (s.data.length - suffix.data.length) = suffix.data)

/-- Modelled after `os.path.splitext(p)[1]`: the extension (with its dot) of
the final path component, empty when that component has no dot beyond any
leading dots. -/
def splitext_ext (p : String) : String :=
  let base := (splitOnChar '/' p.data).getLastD []
  let stripped := base.dropWhile (fun c => c = '.')
  let revTail := stripped.reverse.takeWhile (fun c => c ≠ '.')
  if revTail.length = stripped.length then ""
  else String.mk ('.' :: revTail.reverse)

/-- Modelled from the spec: the external CSV parser (`pd.read_csv`, a
third-party collaborator) "parses the file as tabular data" — first line is
the header row, remaining non-empty lines are data rows; a row of the wrong
width is a parse error ("Malformed CSV fails with a Parse error"). -/
def pd_read_csv (content : String) : Except String Table :=
  match splitOnChar '\n' content.data with
  | [] => .error "No columns to parse from file"
  | header :: rest =>
    let hs := (splitOnChar ',' header).map String.mk
    let rows := (rest.filter (fun l => l ≠ [])).map
      (fun l => (splitOnChar ',' l).map String.mk)
    if rows.all (fun r => r.length = hs.length) then .ok ⟨hs, rows⟩
    else .error "Error tokenizing data"

/-- Right-justify a string in a field of width `w` (pandas-style alignment). -/
def rjust (w : Nat) (s : String) : String :=
  String.mk (List.replicate (w - s.length) ' ') ++ s

/-- Modelled from the spec: the external table renderer
(`DataFrame.to_string(index=False)`) — a "column-aligned stringification" of
the parsed table: header line then one line per row, each cell right-justified
to its column width. -/
def df_to_string (t : Table) : String :=
  let widths := (List.range t.headers.length).map (fun i =>
    ((t.headers.getD i "") :: t.rows.map (fun r => r.getD i "")).foldl
      (fun w s => max w s.length) 0)
  let renderRow := fun (row : List String) =>
    String.intercalate " " ((widths.zip row).map (fun p => rjust p.1 p.2))
  String.intercalate "\n" (renderRow t.headers :: t.rows.map renderRow)

/-- `extract_content_from_pdf` (source lines 26–35): delegates to the Azure
document-intelligence service; any failure is logged and re-raised. -/
def extract_content_from_pdf (env : Env) (pdf_path : String) :
    Except String Content × List ExtCall :=
  (env.pdfExtract pdf_path, [.pdfExtract pdf_path])

/-- `extract_content_from_csv` (source lines 37–49): `pd.read_csv` on the
file, text is `df.to_string(index=False)`, tables is `[df]`; any failure is
logged and re-raised. -/
def extract_content_from_csv (env : Env) (csv_path : String) :
    Except String Content × List ExtCall :=
  let r : Except String Content :=
    match env.fs csv_path with
    | none => .error ("No such file or directory: " ++ csv_path)
    | some content =>
      match pd_read_csv content with
      | .error e => .error e
      | .ok df => .ok (df_to_string df, [df])
  (r, [.csvRead csv_path])

/-- The extension dispatch inside `process_file` (source lines 53–59): the
lowercased path decides the branch; an unrecognised extension raises
`ValueError` before any extraction service is touched. -/
def dispatch_extract (env : Env) (file_path : String) :
    Except String Content × List ExtCall :=
  if strEndsWith (strToLower file_path) ".pdf" then
    extract_content_from_pdf env file_path
  else if strEndsWith (strToLower file_path) ".csv" then
    extract_content_from_csv env file_path
  else (.error ("Unsupported file format: " ++ splitext_ext file_path), [])

/-- Result of `process_file`: the Python function returns either the content
pair or the string `f"Error: {str(e)}"` — it catches every exception. -/
inductive ProcessResult where
  | ok (c : Content)
  | err (msg : String)
deriving Repr, DecidableEq

/-- Output of `process_file`: returned value, updated session state, trace of
external calls made. -/
structure PFOut where
  result : ProcessResult
  state : SessionState
  trace : List ExtCall
deriving Repr, DecidableEq

/-- The body of `process_file` after the extraction attempt: on success store
the content in the session slot selected by `document_type` (`"invoice"` vs
anything else, source lines 62–65); on a caught exception return the
`"Error: ..."` string with the session state untouched (lines 68–70). -/
def process_file_store (file_path document_type : String) (s : SessionState) :
    Except String Content × List ExtCall → PFOut
  | (.ok content, tr) =>
    { result := .ok content
      state :=
        if document_type = "invoice" then { s with invoice_content := some content }
        else { s with po_content := some content }
      trace := .extractor file_path document_type :: tr }
  | (.error e, tr) =>
    { result := .err ("Error: " ++ e)
      state := s
      trace := .extractor file_path document_type :: tr }

/-- `process_file` (source lines 51–70): dispatch on extension, then store or
catch. -/
def process_file (env : Env) (file_path : String) (document_type : String)
    (s : SessionState) : PFOut :=
  process_file_store file_path document_type s (dispatch_extract env file_path)

/-- Serialization of an optional Extracted Content value when interpolated
into the LLM prompt (Python f-string `{st.session_state.invoice_content}`).
The spec treats this format as opaque ("serialized form ... format
unspecified/opaque to this design"); modelled as a plain tuple rendering. -/
def contentRepr : Option Content → String
  | none => "None"
  | some c =>
    "(" ++ c.1 ++ ", [" ++ String.intercalate ", " (c.2.map df_to_string) ++ "])"

/-- The construction of the `PezzoPromptRenderer` (source lines 87–92): four
`st.secrets[...]` lookups, each raising `KeyError` when the secret is absent.
Modelled from the spec: `st.secrets` is an external dict-like collaborator;
"absence of prompt-service secrets is only discovered lazily when Compare is
invoked". -/
def secretsLookup (env : Env) : Except String (String × String × String × String) :=
  match env.secrets "PEZZO_API_KEY" with
  | none => .error "KeyError: PEZZO_API_KEY"
  | some a =>
    match env.secrets "PEZZO_PROJECT_ID" with
    | none => .error "KeyError: PEZZO_PROJECT_ID"
    | some b =>
      match env.secrets "PEZZO_ENVIRONMENT" with
      | none => .error "KeyError: PEZZO_ENVIRONMENT"
      | some c =>
        match env.secrets "PEZZO_SERVER_URL" with
        | none => .error "KeyError: PEZZO_SERVER_URL"
        | some d => .ok (a, b, c, d)

/-- One guarded re-extraction step (source line 76–77 or 78–79): when the
given role path is truthy (non-`None`, non-empty — Python truthiness) and the
role's content is absent, run `process_file` for that role on the current
state; otherwise do nothing.  The caller passes the state's own fields for
`path` and `content`. -/
def lazy_step (env : Env) (dt : String) (path : Option String)
    (content : Option Content) (s : SessionState) : SessionState × List ExtCall :=
  if path.getD "" ≠ "" ∧ content = none then
    ((process_file env (path.getD "") dt s).state,
     (process_file env (path.getD "") dt s).trace)
  else (s, [])

/-- The lazy re-extraction block of `generate_summary` (source lines 76–79):
one step per role; return values are discarded, only the session-state side
effect and the recorded calls matter.  The second step reads the state after
the first. -/
def lazy_inner (env : Env) (s : SessionState) : SessionState × List ExtCall :=
  let step1 := lazy_step env "invoice" s.invoice_path s.invoice_content s
  let step2 := lazy_step env "purchase_order" step1.1.po_path step1.1.po_content step1.1
  (step2.1, step1.2 ++ step2.2)

/-- The guarded lazy phase (source lines 74–79): the re-extraction block runs
only when at least one role's content is absent. -/
def lazy_extract (env : Env) (s : SessionState) : SessionState × List ExtCall :=
  if s.invoice_content = none ∨ s.po_content = none then lazy_inner env s
  else (s, [])

/-- The Precondition error string returned at source line 83. -/
def precondErrMsg : String :=
  "Error: Invoice or PO content not available. Please extract both documents first."

/-- The post-precondition part of `generate_summary` (source lines 85–99):
connect to the LLM deployment, build the Pezzo renderer from `st.secrets`,
fetch the `"PurchaseOrder"` prompt, concatenate it with the serialized
contents, invoke the LLM and return `response.content`.  Nothing here is
caught: every `.error` propagates. -/
def orchestrate (env : Env) (s : SessionState) :
    Except String String × List ExtCall :=
  match env.connect "gpt-4o-mini" with
  | .error e => (.error e, [.connect "gpt-4o-mini"])
  | .ok _ =>
    match secretsLookup env with
    | .error e => (.error e, [.connect "gpt-4o-mini"])
    | .ok _ =>
      match env.getPrompt "PurchaseOrder" with
      | .error e => (.error e, [.connect "gpt-4o-mini", .getPrompt "PurchaseOrder"])
      | .ok prompt =>
        let prompt_txt := prompt ++ "\n\nText: " ++ contentRepr s.invoice_content
          ++ "," ++ contentRepr s.po_content
        match env.llmInvoke prompt_txt with
        | .error e =>
          (.error e, [.connect "gpt-4o-mini", .getPrompt "PurchaseOrder",
            .llmInvoke prompt_txt])
        | .ok resp =>
          (.ok resp, [.connect "gpt-4o-mini", .getPrompt "PurchaseOrder",
            .llmInvoke prompt_txt])

/-- Output of `generate_summary`: `.ok` is a normal return (possibly the
Precondition error string), `.error` is a raised exception propagating to the
caller. -/
structure SummaryOut where
  result : Except String String
  state : SessionState
  trace : List ExtCall

/-- `generate_summary` (source lines 72–99).  Its two parameters are the
session paths passed at the call site (line 174); note the body reads only
`st.session_state`. -/
def generate_summary (env : Env) (invoice_path po_path : String)
    (s : SessionState) : SummaryOut :=
  let L := lazy_extract env s
  if L.1.invoice_content = none ∨ L.1.po_content = none then
    { result := .ok precondErrMsg, state := L.1, trace := L.2 }
  else
    { result := (orchestrate env L.1).1, state := L.1,
      trace := L.2 ++ (orchestrate env L.1).2 }

/-- An uploaded file as seen by the upload handler: its declared name and the
bytes from `uploaded_file.getvalue()`. -/
structure UploadedFile where
  name : String
  content : String
deriving Repr, DecidableEq

/-- Output of `process_uploaded_file`: the returned `(result, temp_path)`
pair, the updated session state, the file system after materialization, and
the trace. -/
structure UploadOut where
  result : ProcessResult
  temp_path : String
  state : SessionState
  env : Env
  trace : List ExtCall

/-- `process_uploaded_file` (source lines 101–135): derive the lowercase
extension from the upload's name, materialize the bytes at a fresh temp path
carrying that extension (modelled as `temp_base ++ extension` with the bytes
written into `fs`), run `process_file` on the temp path, then store the temp
path in the session slot for the role.  The `except` branch at lines 133–135
is not modelled because `process_file` is total (it catches everything);
UI-only calls (`st.write`, progress bars, expanders) have no effect on the
state of this design.  The fresh temp path (`tempfile.NamedTemporaryFile`
with the upload's lowercased extension as suffix) is modelled as an arbitrary
fresh base followed by that suffix. -/
def upload_temp_path (uploaded : UploadedFile) (temp_base : String) : String :=
  temp_base ++ strToLower (splitext_ext uploaded.name)

/-- Materialization (source lines 108–113): the upload's bytes are written to
the fresh temp path, extending the scratch file system. -/
def materialize (env : Env) (uploaded : UploadedFile) (temp_base : String) : Env :=
  { env with fs := fun p =>
      if p = upload_temp_path uploaded temp_base then some uploaded.content
      else env.fs p }

def process_uploaded_file (env : Env) (uploaded : UploadedFile)
    (document_type : String) (temp_base : String) (s : SessionState) : UploadOut :=
  { result := (process_file (materialize env uploaded temp_base)
      (upload_temp_path uploaded temp_base) document_type s).result
    temp_path := upload_temp_path uploaded temp_base
    state :=
      if document_type = "invoice" then
        { (process_file (materialize env uploaded temp_base)
            (upload_temp_path uploaded temp_base) document_type s).state with
          invoice_path := some (upload_temp_path uploaded temp_base) }
      else
        { (process_file (materialize env uploaded temp_base)
            (upload_temp_path uploaded temp_base) document_type s).state with
          po_path := some (upload_temp_path uploaded temp_base) }
    env := materialize env uploaded temp_base
    trace := (process_file (materialize env uploaded temp_base)
      (upload_temp_path uploaded temp_base) document_type s).trace }

/-! ### Concrete test fixtures -/

/-- The CSV content of end-to-end scenario A of the spec. -/
def csvText : String := "item,qty\nWidget,5"

/-- The table that scenario A's CSV parses to. -/
def table0 : Table := ⟨["item", "qty"], [["Widget", "5"]]⟩

/-- A prior Extracted Content value for the invoice role. -/
def oldContent : Content := ("old", [])

/-- Invoice-side content used in the comparison fixtures. -/
def ciC : Content := ("ci", [])

/-- PO-side content used in the comparison fixtures. -/
def cpC : Content := ("cp", [])

/-- A healthy environment: scenario A's CSV on scratch storage, a failing PDF
service, working LLM plumbing and all secrets present. -/
def envT : Env :=
  { fs := fun p => if p = "/tmp/inv.csv" then some csvText else none
    pdfExtract := fun _ => .error "pdf service down"
    connect := fun _ => .ok ()
    secrets := fun _ => some "sek"
    getPrompt := fun _ => .ok "PROMPT"
    llmInvoke := fun _ => .ok "SUMMARY" }

/-- Like `envT` but the Prompt Template Service fails. -/
def envPF : Env := { envT with getPrompt := fun _ => .error "prompt down" }

/-- A session where the invoice role is already ContentReady. -/
def sPrior : SessionState :=
  { invoice_content := some oldContent, po_content := none
    invoice_path := some "/tmp/old.csv", po_path := none }

/-- A session where both roles are ContentReady. -/
def sBoth : SessionState :=
  { invoice_content := some ciC, po_content := some cpC
    invoice_path := some "/a.csv", po_path := some "/b.csv" }

/-- A session where both roles are FileStored but only the PO is
ContentReady. -/
def sOneMissing : SessionState :=
  { invoice_content := none, po_content := some cpC
    invoice_path := some "/tmp/inv.csv", po_path := some "/b.csv" }

/-! ### Helper lemmas -/

theorem dispatch_trace_calls (env : Env) (p : String) :
    ∀ c ∈ (dispatch_extract env p).2,
      isExtractionCall c = true ∧ isExtractorCall c = false := by
  intro c hc
  unfold dispatch_extract at hc
  split at hc
  · simp only [extract_content_from_pdf, List.mem_singleton] at hc
    subst hc; exact ⟨rfl, rfl⟩
  · split at hc
    · simp only [extract_content_from_csv, List.mem_singleton] at hc
      subst hc; exact ⟨rfl, rfl⟩
    · simp at hc

theorem process_file_trace_eq (env : Env) (p dt : String) (s : SessionState) :
    (process_file env p dt s).trace = .extractor p dt :: (dispatch_extract env p).2 := by
  rcases h : dispatch_extract env p with ⟨r, tr⟩
  unfold process_file
  rw [h]
  cases r <;> rfl

theorem process_file_frame (env : Env) (p dt : String) (s : SessionState) :
    (process_file env p dt s).state.invoice_path = s.invoice_path ∧
    (process_file env p dt s).state.po_path = s.po_path ∧
    (dt = "invoice" → (process_file env p dt s).state.po_content = s.po_content) ∧
    (dt ≠ "invoice" → (process_file env p dt s).state.invoice_content = s.invoice_content) := by
  rcases h : dispatch_extract env p with ⟨r, tr⟩
  unfold process_file
  rw [h]
  cases r with
  | ok c =>
    refine ⟨?_, ?_, fun hdt => ?_, fun hdt => ?_⟩ <;>
      simp only [process_file_store] <;> split <;> simp_all
  | error e =>
    exact ⟨rfl, rfl, fun _ => rfl, fun _ => rfl⟩

theorem process_file_content_update (env : Env) (p dt : String) (s : SessionState) :
    (∀ c, (process_file env p dt s).result = .ok c →
      (process_file env p dt s).state =
        (if dt = "invoice" then { s with invoice_content := some c }
         else { s with po_content := some c })) ∧
    (∀ m, (process_file env p dt s).result = .err m →
      (process_file env p dt s).state = s) := by
  rcases h : dispatch_extract env p with ⟨r, tr⟩
  unfold process_file
  rw [h]
  cases r with
  | ok c =>
    refine ⟨fun c2 hc2 => ?_, fun m hm => ?_⟩
    · simp only [process_file_store] at hc2 ⊢
      cases hc2
      rfl
    · cases hm
  | error e =>
    refine ⟨fun c2 hc2 => ?_, fun m hm => ?_⟩
    · cases hc2
    · rfl

theorem lazy_step_trace (env : Env) (dt : String) (path : Option String)
    (content : Option Content) (s : SessionState) :
    ∀ c ∈ (lazy_step env dt path content s).2, isExtractionCall c = true := by
  intro c hc
  unfold lazy_step at hc
  split at hc
  · rw [process_file_trace_eq] at hc
    rcases List.mem_cons.mp hc with hc | hc
    · subst hc; rfl
    · exact (dispatch_trace_calls _ _ c hc).1
  · simp at hc

theorem lazy_inner_trace (env : Env) (s : SessionState) :
    ∀ c ∈ (lazy_inner env s).2, isExtractionCall c = true := by
  intro c hc
  unfold lazy_inner at hc
  simp only [List.mem_append] at hc
  rcases hc with hc | hc
  · exact lazy_step_trace _ _ _ _ _ c hc
  · exact lazy_step_trace _ _ _ _ _ c hc

theorem lazy_trace_extraction (env : Env) (s : SessionState) :
    ∀ c ∈ (lazy_extract env s).2, isExtractionCall c = true := by
  intro c hc
  unfold lazy_extract at hc
  split at hc
  · exact lazy_inner_trace env s c hc
  · simp at hc

theorem filter_extractor_dispatch (env : Env) (p : String) :
    List.filter (fun c => isExtractorCall c) (dispatch_extract env p).2 = [] := by
  rw [List.filter_eq_nil_iff]
  intro a ha
  simp [(dispatch_trace_calls env p a ha).2]

theorem extraction_not_comparison (c : ExtCall) (h : isExtractionCall c = true) :
    isPromptCall c = false ∧ isLlmCall c = false := by
  cases c <;> simp_all [isExtractionCall, isPromptCall, isLlmCall]

theorem upload_result_eq (env : Env) (u : UploadedFile) (dt tb : String)
    (s : SessionState) :
    (process_uploaded_file env u dt tb s).result =
      (process_file (materialize env u tb) (upload_temp_path u tb) dt s).result := rfl

theorem upload_state_eq (env : Env) (u : UploadedFile) (dt tb : String)
    (s : SessionState) :
    (process_uploaded_file env u dt tb s).state =
      (if dt = "invoice" then
        { (process_file (materialize env u tb) (upload_temp_path u tb) dt s).state with
          invoice_path := some (upload_temp_path u tb) }
       else
        { (process_file (materialize env u tb) (upload_temp_path u tb) dt s).state with
          po_path := some (upload_temp_path u tb) }) := rfl

/-! ### Claim theorems -/

/-- C5 (confirmed): the Content Extractor dispatches by a case-insensitive
suffix match: a path whose lowercasing ends in ".pdf" goes to the PDF branch,
otherwise one whose lowercasing ends in ".csv" goes to the CSV branch, and
every other path yields the Unsupported-Format error with an empty call
trace — no extraction is attempted. -/
theorem extractor_dispatch_by_suffix (env : Env) (p : String) :
    (strEndsWith (strToLower p) ".pdf" = true →
      dispatch_extract env p = extract_content_from_pdf env p) ∧
    (strEndsWith (strToLower p) ".pdf" = false →
      strEndsWith (strToLower p) ".csv" = true →
      dispatch_extract env p = extract_content_from_csv env p) ∧
    (strEndsWith (strToLower p) ".pdf" = false →
      strEndsWith (strToLower p) ".csv" = false →
      dispatch_extract env p =
        (.error ("Unsupported file format: " ++ splitext_ext p), [])) := by
  refine ⟨fun h1 => by simp [dispatch_extract, h1],
          fun h1 h2 => by simp [dispatch_extract, h1, h2],
          fun h1 h2 => by simp [dispatch_extract, h1, h2]⟩

/-- C5 witness: concrete dispatches — a mixed-case `.PdF` path goes to the
PDF branch, a mixed-case `.CSV` path to the CSV branch, and a `.txt` path
fails with Unsupported-Format and no extraction call. -/
theorem extractor_dispatch_by_suffix_witness :
    dispatch_extract envT "Report.PdF" = extract_content_from_pdf envT "Report.PdF" ∧
    dispatch_extract envT "data.CSV" = extract_content_from_csv envT "data.CSV" ∧
    dispatch_extract envT "notes.txt" =
      (.error ("Unsupported file format: " ++ splitext_ext "notes.txt"), []) :=
  ⟨(extractor_dispatch_by_suffix envT "Report.PdF").1 (by decide),
   (extractor_dispatch_by_suffix envT "data.CSV").2.1 (by decide) (by decide),
   (extractor_dispatch_by_suffix envT "notes.txt").2.2 (by decide) (by decide)⟩

/-- C6 (confirmed): for every CSV file present on scratch storage whose
content parses to a table `t`, CSV extraction returns exactly the pair whose
text is the column-aligned rendering of `t` and whose tables component is the
one-element sequence `[t]`. -/
theorem csv_extraction_shape (env : Env) (path content : String) (t : Table)
    (hfs : env.fs path = some content) (hp : pd_read_csv content = .ok t) :
    extract_content_from_csv env path =
      (.ok (df_to_string t, [t]), [.csvRead path]) := by
  simp [extract_content_from_csv, hfs, hp]

/-- C6 witness: scenario A — content "item,qty\nWidget,5" parses to the table
whose single data row is ["Widget","5"], and extraction of the materialized
CSV returns the rendered string together with that one table. -/
theorem csv_extraction_shape_witness :
    pd_read_csv csvText = .ok table0 ∧
    table0.rows = [["Widget", "5"]] ∧
    extract_content_from_csv envT "/tmp/inv.csv" =
      (.ok (df_to_string table0, [table0]), [.csvRead "/tmp/inv.csv"]) :=
  ⟨rfl, rfl, csv_extraction_shape envT "/tmp/inv.csv" csvText table0 rfl rfl⟩

/-- C9 (confirmed): `process_file` never raises — it returns either extracted
content or a string of the form "Error: " ++ e (every exception is caught at
lines 68–70), so the `except` branch of `process_uploaded_file` is
unreachable through it, and the Temp File Handle is stored for the uploaded
role on every upload whose materialization succeeds. -/
theorem process_file_never_raises (env : Env) (p dt : String) (s : SessionState)
    (u : UploadedFile) (tb : String) :
    ((∃ c, (process_file env p dt s).result = .ok c) ∨
     (∃ e, (process_file env p dt s).result = .err ("Error: " ++ e))) ∧
    (dt = "invoice" →
      (process_uploaded_file env u dt tb s).state.invoice_path
        = some (process_uploaded_file env u dt tb s).temp_path) ∧
    (dt ≠ "invoice" →
      (process_uploaded_file env u dt tb s).state.po_path
        = some (process_uploaded_file env u dt tb s).temp_path) := by
  refine ⟨?_, fun hdt => ?_, fun hdt => ?_⟩
  · rcases h : dispatch_extract env p with ⟨r, tr⟩
    unfold process_file
    rw [h]
    cases r with
    | ok c => exact Or.inl ⟨c, rfl⟩
    | error e => exact Or.inr ⟨e, rfl⟩
  · rw [upload_state_eq, if_pos hdt]; rfl
  · rw [upload_state_eq, if_neg hdt]; rfl

/-- C9 witness: a concrete upload with a failing extension still returns an
"Error: " message and stores the handle. -/
theorem process_file_never_raises_witness :
    ((∃ c, (process_file envT "/x/a.txt" "invoice" SessionState.empty).result = .ok c) ∨
     (∃ e, (process_file envT "/x/a.txt" "invoice" SessionState.empty).result
        = .err ("Error: " ++ e))) ∧
    (process_uploaded_file envT ⟨"a.txt", "b"⟩ "invoice" "/x/t9"
        SessionState.empty).state.invoice_path
      = some (process_uploaded_file envT ⟨"a.txt", "b"⟩ "invoice" "/x/t9"
        SessionState.empty).temp_path :=
  ⟨(process_file_never_raises envT "/x/a.txt" "invoice" SessionState.empty
      ⟨"a.txt", "b"⟩ "/x/t9").1,
   (process_file_never_raises envT "/x/a.txt" "invoice" SessionState.empty
      ⟨"a.txt", "b"⟩ "/x/t9").2.1 rfl⟩

/-- C10 (confirmed): `generate_summary` never reads its two path parameters:
with the same environment and session state, any two argument pairs produce
the identical result, state update and call trace. -/
theorem generate_summary_ignores_path_args (env : Env) (s : SessionState)
    (ip pp ip2 pp2 : String) :
    generate_summary env ip pp s = generate_summary env ip2 pp2 s := rfl

/-- C1 counterexample: with the invoice role already ContentReady (content
`oldContent`), uploading a new `.txt` file whose extraction fails leaves the
invoice's Extracted Content equal to the old value — it is not reset to
absent before (or after) the failed extraction, contradicting the claim that
a new upload always resets the role's Extracted Content. -/
theorem new_upload_keeps_stale_content :
    (process_uploaded_file envT ⟨"bad.txt", "x"⟩ "invoice" "/tmp/t0" sPrior).result
        = .err "Error: Unsupported file format: .txt" ∧
    (process_uploaded_file envT ⟨"bad.txt", "x"⟩ "invoice" "/tmp/t0" sPrior).state.invoice_content
        = some oldContent ∧
    ¬ (process_uploaded_file envT ⟨"bad.txt", "x"⟩ "invoice" "/tmp/t0"
        sPrior).state.invoice_content = none :=
  ⟨by decide, by decide, by decide⟩

/-- C1 (amended, corrected): completing Upload+Extract(role, file) replaces
that role's Extracted Content with the new result when the new extraction
succeeds; when the new extraction fails, the role's Extracted Content is left
unchanged — prior extracted content is retained, not reset to absent. -/
theorem upload_content_update (env : Env) (u : UploadedFile) (dt tb : String)
    (s : SessionState) :
    (dt = "invoice" →
      (∀ c, (process_uploaded_file env u dt tb s).result = .ok c →
        (process_uploaded_file env u dt tb s).state.invoice_content = some c) ∧
      (∀ m, (process_uploaded_file env u dt tb s).result = .err m →
        (process_uploaded_file env u dt tb s).state.invoice_content
          = s.invoice_content)) ∧
    (dt ≠ "invoice" →
      (∀ c, (process_uploaded_file env u dt tb s).result = .ok c →
        (process_uploaded_file env u dt tb s).state.po_content = some c) ∧
      (∀ m, (process_uploaded_file env u dt tb s).result = .err m →
        (process_uploaded_file env u dt tb s).state.po_content = s.po_content)) := by
  constructor
  · intro hdt
    refine ⟨fun c hc => ?_, fun m hm => ?_⟩
    · rw [upload_result_eq] at hc
      have h2 := (process_file_content_update (materialize env u tb)
        (upload_temp_path u tb) dt s).1 c hc
      rw [upload_state_eq, if_pos hdt]
      show (process_file (materialize env u tb)
        (upload_temp_path u tb) dt s).state.invoice_content = some c
      rw [h2, if_pos hdt]
    · rw [upload_result_eq] at hm
      have h2 := (process_file_content_update (materialize env u tb)
        (upload_temp_path u tb) dt s).2 m hm
      rw [upload_state_eq, if_pos hdt]
      show (process_file (materialize env u tb)
        (upload_temp_path u tb) dt s).state.invoice_content = s.invoice_content
      rw [h2]
  · intro hdt
    refine ⟨fun c hc => ?_, fun m hm => ?_⟩
    · rw [upload_result_eq] at hc
      have h2 := (process_file_content_update (materialize env u tb)
        (upload_temp_path u tb) dt s).1 c hc
      rw [upload_state_eq, if_neg hdt]
      show (process_file (materialize env u tb)
        (upload_temp_path u tb) dt s).state.po_content = some c
      rw [h2, if_neg hdt]
    · rw [upload_result_eq] at hm
      have h2 := (process_file_content_update (materialize env u tb)
        (upload_temp_path u tb) dt s).2 m hm
      rw [upload_state_eq, if_neg hdt]
      show (process_file (materialize env u tb)
        (upload_temp_path u tb) dt s).state.po_content = s.po_content
      rw [h2]

/-- C1 witness: a failing re-upload for the invoice role retains the prior
content. -/
theorem upload_content_update_witness :
    (process_uploaded_file envT ⟨"new.txt", "z"⟩ "invoice" "/tmp/t3" sPrior).result
        = .err "Error: Unsupported file format: .txt" ∧
    (process_uploaded_file envT ⟨"new.txt", "z"⟩ "invoice" "/tmp/t3"
        sPrior).state.invoice_content = sPrior.invoice_content :=
  ⟨by decide,
   ((upload_content_update envT ⟨"new.txt", "z"⟩ "invoice" "/tmp/t3" sPrior).1
      rfl).2 "Error: Unsupported file format: .txt" (by decide)⟩

/-- C2 (confirmed): on every Upload+Extract whose extraction fails (the
result is an error message — including the Unsupported-Format case of an
extension that is neither .pdf nor .csv), the uploaded bytes are still
materialized at the temp path, the temp path is stored as the role's Temp
File Handle (the role reaches FileStored), and the failure is the returned
message, not a raised exception. -/
theorem upload_failure_reaches_filestored (env : Env) (u : UploadedFile)
    (dt tb : String) (s : SessionState) (m : String)
    (h : (process_uploaded_file env u dt tb s).result = .err m) :
    (process_uploaded_file env u dt tb s).env.fs
        (process_uploaded_file env u dt tb s).temp_path = some u.content ∧
    (dt = "invoice" →
      (process_uploaded_file env u dt tb s).state.invoice_path
        = some (process_uploaded_file env u dt tb s).temp_path) ∧
    (dt ≠ "invoice" →
      (process_uploaded_file env u dt tb s).state.po_path
        = some (process_uploaded_file env u dt tb s).temp_path) := by
  refine ⟨?_, fun hdt => ?_, fun hdt => ?_⟩
  · show (materialize env u tb).fs (upload_temp_path u tb) = some u.content
    simp [materialize]
  · rw [upload_state_eq, if_pos hdt]; rfl
  · rw [upload_state_eq, if_neg hdt]; rfl

/-- C2 witness: scenario D — uploading `po.docx` for the PO role fails with
Unsupported-Format yet materializes the file and stores the handle. -/
theorem upload_failure_reaches_filestored_witness :
    (process_uploaded_file envT ⟨"po.docx", "y"⟩ "purchase_order" "/tmp/t1"
        SessionState.empty).result = .err "Error: Unsupported file format: .docx" ∧
    (process_uploaded_file envT ⟨"po.docx", "y"⟩ "purchase_order" "/tmp/t1"
        SessionState.empty).env.fs
      (process_uploaded_file envT ⟨"po.docx", "y"⟩ "purchase_order" "/tmp/t1"
        SessionState.empty).temp_path = some "y" ∧
    (process_uploaded_file envT ⟨"po.docx", "y"⟩ "purchase_order" "/tmp/t1"
        SessionState.empty).state.po_path
      = some (process_uploaded_file envT ⟨"po.docx", "y"⟩ "purchase_order" "/tmp/t1"
        SessionState.empty).temp_path :=
  ⟨by decide,
   (upload_failure_reaches_filestored envT ⟨"po.docx", "y"⟩ "purchase_order"
      "/tmp/t1" SessionState.empty "Error: Unsupported file format: .docx"
      (by decide)).1,
   (upload_failure_reaches_filestored envT ⟨"po.docx", "y"⟩ "purchase_order"
      "/tmp/t1" SessionState.empty "Error: Unsupported file format: .docx"
      (by decide)).2.2 (by decide)⟩

/-- C3 (confirmed): whenever after the lazy re-extraction step at least one
role's Extracted Content is still absent (in particular whenever a role's
Temp File Handle is absent, since such a role is skipped by the lazy step),
Compare returns the Precondition error message as a normal result in the
post-lazy state, and its call trace contains only extraction-side calls — the
Prompt Template Service, the LLM connector and the LLM are never invoked. -/
theorem compare_precondition_failure (env : Env) (ip pp : String)
    (s : SessionState)
    (h : (lazy_extract env s).1.invoice_content = none ∨
         (lazy_extract env s).1.po_content = none) :
    generate_summary env ip pp s =
      { result := .ok precondErrMsg, state := (lazy_extract env s).1,
        trace := (lazy_extract env s).2 } ∧
    ∀ c ∈ (generate_summary env ip pp s).trace, isExtractionCall c = true := by
  have hg : generate_summary env ip pp s =
      { result := .ok precondErrMsg, state := (lazy_extract env s).1,
        trace := (lazy_extract env s).2 } := by
    simp only [generate_summary]
    rw [if_pos h]
  refine ⟨hg, ?_⟩
  rw [hg]
  exact lazy_trace_extraction env s

/-- C3 witness: on a fresh session (no handles, no content) Compare fails
with the Precondition error and performs no calls at all. -/
theorem compare_precondition_failure_witness :
    (lazy_extract envT SessionState.empty).1.invoice_content = none ∧
    generate_summary envT "u" "v" SessionState.empty =
      { result := .ok precondErrMsg,
        state := (lazy_extract envT SessionState.empty).1,
        trace := (lazy_extract envT SessionState.empty).2 } :=
  ⟨by decide,
   (compare_precondition_failure envT "u" "v" SessionState.empty
      (Or.inl (by decide))).1⟩

/-- C4 (confirmed): when both roles hold a truthy Temp File Handle and
exactly one role's Extracted Content is absent, the lazy phase of Compare
performs exactly one Content-Extractor invocation — on the missing role's
stored path, for that role — and leaves the present role's content
untouched.  The guard tests only content absence, so a role whose previous
extraction failed is re-extracted here rather than treated as a cached
failure. -/
theorem compare_lazy_extracts_only_missing_role (env : Env) (s : SessionState)
    (p q : String) (hp : s.invoice_path = some p) (hp2 : p ≠ "")
    (hq : s.po_path = some q) (hq2 : q ≠ "") :
    (∀ cp, s.invoice_content = none → s.po_content = some cp →
      List.filter (fun c => isExtractorCall c) (lazy_extract env s).2
          = [.extractor p "invoice"] ∧
      (lazy_extract env s).1.po_content = some cp) ∧
    (∀ ci, s.invoice_content = some ci → s.po_content = none →
      List.filter (fun c => isExtractorCall c) (lazy_extract env s).2
          = [.extractor q "purchase_order"] ∧
      (lazy_extract env s).1.invoice_content = some ci) := by
  constructor
  · intro cp hci hcp
    have hframe := process_file_frame env p "invoice" s
    have hle : lazy_extract env s = lazy_inner env s := by
      unfold lazy_extract
      rw [if_pos (Or.inl hci)]
    have hstep1 : lazy_step env "invoice" s.invoice_path s.invoice_content s =
        ((process_file env p "invoice" s).state,
         (process_file env p "invoice" s).trace) := by
      rw [hp, hci]
      unfold lazy_step
      rw [if_pos ⟨by simpa using hp2, rfl⟩]
      rfl
    have hstep2cond :
        ¬ ((process_file env p "invoice" s).state.po_path.getD "" ≠ "" ∧
           (process_file env p "invoice" s).state.po_content = none) := by
      rw [hframe.2.2.1 rfl, hcp]
      simp
    have hinner : lazy_inner env s =
        ((process_file env p "invoice" s).state,
         (process_file env p "invoice" s).trace ++ []) := by
      simp only [lazy_inner, hstep1]
      unfold lazy_step
      rw [if_neg hstep2cond]
    rw [hle, hinner]
    constructor
    · rw [List.append_nil, process_file_trace_eq,
        List.filter_cons_of_pos (by rfl), filter_extractor_dispatch]
    · rw [hframe.2.2.1 rfl, hcp]
  · intro ci hci hcp
    have hframe := process_file_frame env q "purchase_order" s
    have hle : lazy_extract env s = lazy_inner env s := by
      unfold lazy_extract
      rw [if_pos (Or.inr hcp)]
    have hstep1 : lazy_step env "invoice" s.invoice_path s.invoice_content s
        = (s, []) := by
      rw [hp, hci]
      unfold lazy_step
      rw [if_neg (by simp)]
    have hstep2 : lazy_step env "purchase_order" s.po_path s.po_content s =
        ((process_file env q "purchase_order" s).state,
         (process_file env q "purchase_order" s).trace) := by
      rw [hq, hcp]
      unfold lazy_step
      rw [if_pos ⟨by simpa using hq2, rfl⟩]
      rfl
    have hinner : lazy_inner env s =
        ((process_file env q "purchase_order" s).state,
         [] ++ (process_file env q "purchase_order" s).trace) := by
      simp only [lazy_inner, hstep1]
      rw [hstep2]
    rw [hle, hinner]
    constructor
    · rw [List.nil_append, process_file_trace_eq,
        List.filter_cons_of_pos (by rfl), filter_extractor_dispatch]
    · rw [hframe.2.2.2 (by decide), hci]

/-- C4 witness: with both handles present and only the invoice content
missing, the lazy phase extracts exactly the invoice role and keeps the PO
content. -/
theorem compare_lazy_extracts_only_missing_role_witness :
    List.filter (fun c => isExtractorCall c) (lazy_extract envT sOneMissing).2
        = [.extractor "/tmp/inv.csv" "invoice"] ∧
    (lazy_extract envT sOneMissing).1.po_content = some cpC :=
  (compare_lazy_extracts_only_missing_role envT sOneMissing "/tmp/inv.csv"
    "/b.csv" rfl (by decide) rfl (by decide)).1 cpC rfl rfl

/-- C8 (confirmed): an Upload+Extract invocation for one role leaves the
other role's Temp File Handle and Extracted Content unchanged, whether the
extraction succeeds or fails. -/
theorem upload_other_role_frame (env : Env) (u : UploadedFile) (dt tb : String)
    (s : SessionState) :
    (dt = "invoice" →
      (process_uploaded_file env u dt tb s).state.po_path = s.po_path ∧
      (process_uploaded_file env u dt tb s).state.po_content = s.po_content) ∧
    (dt = "purchase_order" →
      (process_uploaded_file env u dt tb s).state.invoice_path = s.invoice_path ∧
      (process_uploaded_file env u dt tb s).state.invoice_content
        = s.invoice_content) := by
  constructor
  · intro hdt
    subst hdt
    have hframe := process_file_frame (materialize env u tb)
      (upload_temp_path u tb) "invoice" s
    rw [upload_state_eq, if_pos rfl]
    exact ⟨hframe.2.1, hframe.2.2.1 rfl⟩
  · intro hdt
    subst hdt
    have hframe := process_file_frame (materialize env u tb)
      (upload_temp_path u tb) "purchase_order" s
    rw [upload_state_eq, if_neg (by decide)]
    exact ⟨hframe.1, hframe.2.2.2 (by decide)⟩

/-- C8 witness: a successful invoice upload leaves the PO role's handle and
content untouched. -/
theorem upload_other_role_frame_witness :
    (process_uploaded_file envT ⟨"inv.csv", "item,qty\nWidget,5"⟩ "invoice"
        "/tmp/t8" sOneMissing).state.po_path = sOneMissing.po_path ∧
    (process_uploaded_file envT ⟨"inv.csv", "item,qty\nWidget,5"⟩ "invoice"
        "/tmp/t8" sOneMissing).state.po_content = sOneMissing.po_content :=
  (upload_other_role_frame envT ⟨"inv.csv", "item,qty\nWidget,5"⟩ "invoice"
    "/tmp/t8" sOneMissing).1 rfl

/-- C7 (confirmed): once the precondition check has passed (both contents
present after the lazy step), the comparison orchestration neither catches
nor retries: the Prompt Template Service and the LLM are each invoked at most
once, and an error raised by the connector, the prompt retrieval or the LLM
invocation becomes the raised result of `generate_summary` itself,
unchanged. -/
theorem comparison_errors_propagate (env : Env) (ip pp : String)
    (s : SessionState) (ci cp : Content)
    (h1 : (lazy_extract env s).1.invoice_content = some ci)
    (h2 : (lazy_extract env s).1.po_content = some cp) :
    ((generate_summary env ip pp s).trace.countP (fun c => isPromptCall c) ≤ 1 ∧
     (generate_summary env ip pp s).trace.countP (fun c => isLlmCall c) ≤ 1) ∧
    (∀ e, env.connect "gpt-4o-mini" = .error e →
      (generate_summary env ip pp s).result = .error e) ∧
    (∀ v e, env.connect "gpt-4o-mini" = .ok () → secretsLookup env = .ok v →
      env.getPrompt "PurchaseOrder" = .error e →
      (generate_summary env ip pp s).result = .error e) ∧
    (∀ v prompt e, env.connect "gpt-4o-mini" = .ok () →
      secretsLookup env = .ok v → env.getPrompt "PurchaseOrder" = .ok prompt →
      env.llmInvoke (prompt ++ "\n\nText: " ++ contentRepr (some ci) ++ ","
        ++ contentRepr (some cp)) = .error e →
      (generate_summary env ip pp s).result = .error e) := by
  have hnot : ¬ ((lazy_extract env s).1.invoice_content = none ∨
      (lazy_extract env s).1.po_content = none) := by
    simp [h1, h2]
  have hg : generate_summary env ip pp s =
      { result := (orchestrate env (lazy_extract env s).1).1,
        state := (lazy_extract env s).1,
        trace := (lazy_extract env s).2
          ++ (orchestrate env (lazy_extract env s).1).2 } := by
    simp only [generate_summary]
    rw [if_neg hnot]
  refine ⟨?_, ?_, ?_, ?_⟩
  · rw [hg]
    simp only [List.countP_append]
    have hz1 : (lazy_extract env s).2.countP (fun c => isPromptCall c) = 0 := by
      rw [List.countP_eq_zero]
      intro a ha
      simp [(extraction_not_comparison a (lazy_trace_extraction env s a ha)).1]
    have hz2 : (lazy_extract env s).2.countP (fun c => isLlmCall c) = 0 := by
      rw [List.countP_eq_zero]
      intro a ha
      simp [(extraction_not_comparison a (lazy_trace_extraction env s a ha)).2]
    rw [hz1, hz2]
    have horch : ∀ s1 : SessionState,
        (orchestrate env s1).2.countP (fun c => isPromptCall c) ≤ 1 ∧
        (orchestrate env s1).2.countP (fun c => isLlmCall c) ≤ 1 := by
      intro s1
      unfold orchestrate
      constructor <;> repeat' split
      all_goals try simp [List.countP_cons, isPromptCall, isLlmCall]
      all_goals split
      all_goals simp [List.countP_cons, isPromptCall, isLlmCall]
    simpa using horch (lazy_extract env s).1
  · intro e hc
    rw [hg]
    show (orchestrate env (lazy_extract env s).1).1 = .error e
    simp [orchestrate, hc]
  · intro v e hc hs2 hgp
    rw [hg]
    show (orchestrate env (lazy_extract env s).1).1 = .error e
    simp [orchestrate, hc, hs2, hgp]
  · intro v prompt e hc hs2 hgp hllm
    rw [hg]
    show (orchestrate env (lazy_extract env s).1).1 = .error e
    simp [orchestrate, hc, hs2, hgp, h1, h2, hllm]

/-- C7 witness: with both contents present and a failing Prompt Template
Service, Compare raises exactly the prompt service's error. -/
theorem comparison_errors_propagate_witness :
    secretsLookup envPF = .ok ("sek", "sek", "sek", "sek") ∧
    (generate_summary envPF "x" "y" sBoth).result = .error "prompt down" :=
  ⟨rfl,
   (comparison_errors_propagate envPF "x" "y" sBoth ciC cpC (by decide)
      (by decide)).2.2.1 ("sek", "sek", "sek", "sek") "prompt down" rfl rfl rfl⟩

end Reconcile
